import Mathlib

/-!
Verification of the repository-intelligence analyzer core
(`src/core/analyzer.py`, with the CLI in `cli/analyze.py` and the REST
surface in `src/api/main.py` as callers).

Numbers: the Python floats that occur in the analyzer are all small
decimal literals (0.7, 0.75, 0.8, 0.6, 0.2, ...), each exactly
representable; we embed them as rationals (`ℚ`), writing 0.75 as 3/4,
0.8 as 4/5, 0.7 as 7/10, 0.6 as 3/5, 0.2 as 1/5, 0.3 as 3/10,
0.5 as 1/2.

Python dicts returned by the analyzer have a fixed key set per branch,
so each result shape is a structure; a key that one branch includes and
the other omits (`demo_mode`) is an `Option` field, `none` meaning the
key is absent from the returned mapping.

The external engine package `repo_intelligence_demo` (imported by the
engine-available branch) is not part of this repository's sources; its
`MathematicalEngine.analyze` is embedded as an arbitrary function
parameter, constrained only where a claim needs the spec's published
contract for it (see `EngineMeetsSpec`).
-/

/-- The four sub-metric values H, V, C, A of an analysis, as returned in
the result's `metrics` mapping. -/
structure Metrics where
  H : ℚ
  V : ℚ
  C : ℚ
  A : ℚ
  deriving Repr, DecidableEq

/-- The result mapping returned by `RepositoryAnalyzer.analyze_repository`.
`demo_mode` is `Option Bool`: `some b` when the branch puts the key
`demo_mode` with value `b` into the dict, `none` when the branch omits
the key entirely. -/
structure AnalysisResult where
  repository : String
  classification : String
  M_score : ℚ
  threshold : ℚ
  metrics : Metrics
  recommendations : List String
  demo : Bool
  demo_mode : Option Bool
  deriving Repr, DecidableEq

/-- The dict returned by `MathematicalEngine.analyze` of the external
`repo_intelligence_demo` package, as the analyzer consumes it: it reads
`result["M_score"]`, `result["meets_threshold"]`, `result["metrics"]`,
and `result.get("recommendations", [])` — the last with a default, so
the key may be absent (`none`). -/
structure EngineResult where
  M_score : ℚ
  metrics : Metrics
  meets_threshold : Bool
  recommendations : Option (List String)
  deriving Repr, DecidableEq

/-- The external mathematical engine: `engine.analyze(repo_url, threshold)`
as a function. The package is not in this repository; a concrete engine
is a parameter of the embedding. -/
def MathematicalEngine : Type := String → ℚ → EngineResult

/-- `RepositoryAnalyzer.__init__` populates exactly one instance
attribute, `self.demo_available` (a `Bool`: whether
`import repo_intelligence_demo` succeeds). -/
structure RepositoryAnalyzer where
  demo_available : Bool
  deriving Repr, DecidableEq

/-- Default value of the `threshold` parameter of `analyze_repository`
(Python: `threshold: float = 0.7`). -/
def defaultThreshold : ℚ := 7/10

/-- The recommendation string of the fallback branch. -/
def installHint : String := "Install repo-intelligence-core for full analysis"

/-- Embedding of `RepositoryAnalyzer.analyze_repository(self, repo_url,
threshold=0.7)`.  Mirrors the source: if `self.demo_available` is false
it returns the fixed fallback dict (classification `DEMO_HEALTHY`,
M_score 0.75, metrics H 0.8 / V 0.7 / C 0.6 / A 0.2, the single install
recommendation, `demo: False`, `demo_mode: True`); otherwise it calls
the external engine and builds the dict with classification `HEALTHY`
when `result["meets_threshold"]` else `NEEDS_ATTENTION`, the engine's
M_score and metrics, `result.get("recommendations", [])`, `demo: True`,
and no `demo_mode` key. -/
def analyze_repository (engine : MathematicalEngine)
    (self : RepositoryAnalyzer) (repo_url : String)
    (threshold : ℚ := defaultThreshold) : AnalysisResult :=
  if self.demo_available = false then
    { repository := repo_url
      classification := "DEMO_HEALTHY"
      M_score := 3/4
      threshold := threshold
      metrics := { H := 4/5, V := 7/10, C := 3/5, A := 1/5 }
      recommendations := [installHint]
      demo := false
      demo_mode := some true }
  else
    let result := engine repo_url threshold
    { repository := repo_url
      classification :=
        if result.meets_threshold then "HEALTHY" else "NEEDS_ATTENTION"
      M_score := result.M_score
      threshold := threshold
      metrics := result.metrics
      recommendations := result.recommendations.getD []
      demo := true
      demo_mode := none }

/-- The dict returned by `RepositoryAnalyzer.get_engine_info`; `version`
and `message` are keys only one branch includes, so they are `Option`. -/
structure EngineInfo where
  engine : String
  capabilities : List String
  version : Option String
  message : Option String
  deriving Repr, DecidableEq

/-- Embedding of `RepositoryAnalyzer.get_engine_info(self)`. -/
def get_engine_info (self : RepositoryAnalyzer) : EngineInfo :=
  if self.demo_available then
    { engine := "Proprietary π₁ Mathematical Engine"
      capabilities :=
        ["Full repository analysis", "π₁ formula", "Custom thresholds"]
      version := some "1.0.0"
      message := none }
  else
    { engine := "Demo Mode"
      capabilities := ["Basic structure analysis", "Demo metrics"]
      version := none
      message := some "Install repo-intelligence-core for full capabilities" }

/-- Modelled from the spec: the contract of the external engine package
`repo_intelligence_demo` (absent from this repository's sources; only
its caller `analyze_repository` is in src/).  Per the spec:
`meets_threshold` reflects `M ≥ threshold` (§4.6 classification), M and
every metric lie in [0,1] (§8), and the recommendation generator returns
an empty list when all metrics are within their target bands
H ≥ 0.6, V ≥ 0.5, C ≥ 0.5, A ≤ 0.3 (§4.7). -/
def EngineMeetsSpec (engine : MathematicalEngine) : Prop :=
  ∀ (u : String) (t : ℚ),
    ((engine u t).meets_threshold = true ↔ t ≤ (engine u t).M_score) ∧
    (0 ≤ (engine u t).M_score ∧ (engine u t).M_score ≤ 1) ∧
    (0 ≤ (engine u t).metrics.H ∧ (engine u t).metrics.H ≤ 1) ∧
    (0 ≤ (engine u t).metrics.V ∧ (engine u t).metrics.V ≤ 1) ∧
    (0 ≤ (engine u t).metrics.C ∧ (engine u t).metrics.C ≤ 1) ∧
    (0 ≤ (engine u t).metrics.A ∧ (engine u t).metrics.A ≤ 1) ∧
    ((3/5 ≤ (engine u t).metrics.H ∧ 1/2 ≤ (engine u t).metrics.V ∧
      1/2 ≤ (engine u t).metrics.C ∧ (engine u t).metrics.A ≤ 3/10) →
      (engine u t).recommendations.getD [] = [])

/-- The target bands of the recommendation generator (§4.7 of the spec,
quoted by claim C8): H ≥ 0.6, V ≥ 0.5, C ≥ 0.5, A ≤ 0.3. -/
def metricsInBand (m : Metrics) : Prop :=
  3/5 ≤ m.H ∧ 1/2 ≤ m.V ∧ 1/2 ≤ m.C ∧ m.A ≤ 3/10

instance (m : Metrics) : Decidable (metricsInBand m) := by
  unfold metricsInBand; infer_instance

/-- A concrete engine satisfying `EngineMeetsSpec`, used to instantiate
hypotheses at concrete inputs. -/
def specEngine : MathematicalEngine := fun _ t =>
  { M_score := 3/4
    metrics := { H := 4/5, V := 7/10, C := 3/5, A := 1/5 }
    meets_threshold := decide (t ≤ 3/4)
    recommendations := some [] }

/-- A concrete repository URL used to instantiate claims. -/
def exampleUrl : String := "https://github.com/example/repo"

theorem specEngine_meets_spec : EngineMeetsSpec specEngine := by
  intro u t
  refine ⟨?_, ?_, ?_, ?_, ?_, ?_, ?_⟩ <;> simp [specEngine] <;> norm_num

/-- C1, as stated, is false on the fallback branch: with the engine
unavailable and threshold 0.5, the result's M_score 0.75 is above the
threshold yet the classification is not `HEALTHY` (it is
`DEMO_HEALTHY`). -/
theorem C1_counterexample :
    (1:ℚ)/2 ≤ (analyze_repository specEngine ⟨false⟩ exampleUrl (1/2)).M_score ∧
    (analyze_repository specEngine ⟨false⟩ exampleUrl (1/2)).classification ≠
      "HEALTHY" := by
  constructor
  · norm_num [analyze_repository]
  · simp [analyze_repository]

/-- C1 (amended): when the engine is available (and the external engine
meets its published contract, under which `meets_threshold` is M ≥ t),
the classification is `HEALTHY` iff M_score ≥ t and otherwise
`NEEDS_ATTENTION`; when the engine is unavailable the classification is
the fixed string `DEMO_HEALTHY` regardless of M_score and t. -/
theorem C1_classification_iff_threshold (engine : MathematicalEngine)
    (hspec : EngineMeetsSpec engine) (a : RepositoryAnalyzer)
    (u : String) (t : ℚ) :
    (a.demo_available = true →
      (((analyze_repository engine a u t).classification = "HEALTHY" ↔
          t ≤ (analyze_repository engine a u t).M_score) ∧
        ((analyze_repository engine a u t).classification ≠ "HEALTHY" →
          (analyze_repository engine a u t).classification =
            "NEEDS_ATTENTION"))) ∧
    (a.demo_available = false →
      (analyze_repository engine a u t).classification = "DEMO_HEALTHY") := by
  constructor
  · intro h
    have hs := (hspec u t).1
    cases hb : (engine u t).meets_threshold with
    | true =>
        have ht : t ≤ (engine u t).M_score := hs.mp hb
        simp [analyze_repository, h, hb, ht]
    | false =>
        have ht : ¬ t ≤ (engine u t).M_score := by
          intro hc
          exact absurd (hs.mpr hc) (by simp [hb])
        simp [analyze_repository, h, hb, ht]
  · intro h
    simp [analyze_repository, h]

/-- Witness for C1 at the concrete input: available engine, example URL,
threshold 0.5; the classification evaluates to `HEALTHY`. -/
theorem C1_classification_iff_threshold_witness :
    (analyze_repository specEngine ⟨true⟩ exampleUrl (1/2)).classification =
      "HEALTHY" :=
  ((C1_classification_iff_threshold specEngine specEngine_meets_spec
      ⟨true⟩ exampleUrl (1/2)).1 rfl).1.mpr
    (by norm_num [analyze_repository, specEngine])

/-- C2, as stated, is false: the fallback branch returns a third
classification string, `DEMO_HEALTHY`, which is neither `HEALTHY` nor
`NEEDS_ATTENTION`. -/
theorem C2_counterexample :
    (analyze_repository specEngine ⟨false⟩ exampleUrl
        defaultThreshold).classification ≠ "HEALTHY" ∧
    (analyze_repository specEngine ⟨false⟩ exampleUrl
        defaultThreshold).classification ≠ "NEEDS_ATTENTION" := by
  constructor <;> simp [analyze_repository]

/-- C2 (amended): when the engine is available the classification is one
of exactly two values, `HEALTHY` or `NEEDS_ATTENTION`; when the engine
is unavailable it is the third value `DEMO_HEALTHY`. -/
theorem C2_classification_two_values (engine : MathematicalEngine)
    (a : RepositoryAnalyzer) (u : String) (t : ℚ) :
    (a.demo_available = true →
      (analyze_repository engine a u t).classification = "HEALTHY" ∨
      (analyze_repository engine a u t).classification = "NEEDS_ATTENTION") ∧
    (a.demo_available = false →
      (analyze_repository engine a u t).classification = "DEMO_HEALTHY") := by
  constructor
  · intro h
    cases hb : (engine u t).meets_threshold <;>
      simp [analyze_repository, h, hb]
  · intro h
    simp [analyze_repository, h]

/-- Witness for C2 at the concrete input: unavailable engine, example
URL, default threshold; the classification evaluates to `DEMO_HEALTHY`. -/
theorem C2_classification_two_values_witness :
    (analyze_repository specEngine ⟨false⟩ exampleUrl
        defaultThreshold).classification = "DEMO_HEALTHY" :=
  (C2_classification_two_values specEngine ⟨false⟩ exampleUrl
      defaultThreshold).2 rfl

/-- C3, as stated, is false: the engine-available branch builds its
result dict without any `demo_mode` key (it carries `demo: True`
instead), so the confidence flag is omitted there. -/
theorem C3_counterexample :
    (analyze_repository specEngine ⟨true⟩ exampleUrl
        defaultThreshold).demo_mode = none := by
  simp [analyze_repository]

/-- C3 (amended): the fallback result always contains the key
`demo_mode` with value true, but the engine-available result omits the
`demo_mode` key entirely. -/
theorem C3_demo_mode_key (engine : MathematicalEngine)
    (a : RepositoryAnalyzer) (u : String) (t : ℚ) :
    (a.demo_available = false →
      (analyze_repository engine a u t).demo_mode = some true) ∧
    (a.demo_available = true →
      (analyze_repository engine a u t).demo_mode = none) := by
  constructor <;> intro h <;> simp [analyze_repository, h]

/-- Witness for C3 at the concrete input: unavailable engine, example
URL, default threshold; the result carries `demo_mode = true`. -/
theorem C3_demo_mode_key_witness :
    (analyze_repository specEngine ⟨false⟩ exampleUrl
        defaultThreshold).demo_mode = some true :=
  (C3_demo_mode_key specEngine ⟨false⟩ exampleUrl defaultThreshold).1 rfl

/-- C4: with the engine package unavailable, the fallback result is the
fixed constant of the source (M_score 0.75, metrics H 0.8 / V 0.7 /
C 0.6 / A 0.2, classification `DEMO_HEALTHY`, the single install
recommendation), and any two results — even under different engines and
different URLs — differ at most in their `repository` field. -/
theorem C4_fallback_constant (engine1 engine2 : MathematicalEngine)
    (a1 a2 : RepositoryAnalyzer) (h1 : a1.demo_available = false)
    (h2 : a2.demo_available = false) (u1 u2 : String) (t : ℚ) :
    (analyze_repository engine1 a1 u1 t).M_score = 3/4 ∧
    (analyze_repository engine1 a1 u1 t).metrics =
      { H := 4/5, V := 7/10, C := 3/5, A := 1/5 } ∧
    (analyze_repository engine1 a1 u1 t).classification = "DEMO_HEALTHY" ∧
    (analyze_repository engine1 a1 u1 t).recommendations = [installHint] ∧
    analyze_repository engine1 a1 u1 t =
      { analyze_repository engine2 a2 u2 t with repository := u1 } := by
  refine ⟨?_, ?_, ?_, ?_, ?_⟩ <;> simp [analyze_repository, h1, h2]

/-- Witness for C4 at the concrete input: two unavailable-engine
analyzers, two URLs; the first result's M_score evaluates to 0.75. -/
theorem C4_fallback_constant_witness :
    (analyze_repository specEngine ⟨false⟩ exampleUrl
        defaultThreshold).M_score = 3/4 :=
  (C4_fallback_constant specEngine specEngine ⟨false⟩ ⟨false⟩ rfl rfl
      exampleUrl "https://github.com/example/other" defaultThreshold).1

/-- C5: every returned M_score lies in [0,1] and each of the four
metric values H, V, C, A lies in [0,1] — on the fallback branch by the
concrete constants, on the engine branch by the engine contract
(modelled from the spec, `EngineMeetsSpec`). -/
theorem C5_scores_in_range (engine : MathematicalEngine)
    (hspec : EngineMeetsSpec engine) (a : RepositoryAnalyzer)
    (u : String) (t : ℚ) :
    (0 ≤ (analyze_repository engine a u t).M_score ∧
      (analyze_repository engine a u t).M_score ≤ 1) ∧
    (0 ≤ (analyze_repository engine a u t).metrics.H ∧
      (analyze_repository engine a u t).metrics.H ≤ 1) ∧
    (0 ≤ (analyze_repository engine a u t).metrics.V ∧
      (analyze_repository engine a u t).metrics.V ≤ 1) ∧
    (0 ≤ (analyze_repository engine a u t).metrics.C ∧
      (analyze_repository engine a u t).metrics.C ≤ 1) ∧
    (0 ≤ (analyze_repository engine a u t).metrics.A ∧
      (analyze_repository engine a u t).metrics.A ≤ 1) := by
  cases ha : a.demo_available with
  | false =>
      refine ⟨?_, ?_, ?_, ?_, ?_⟩ <;> constructor <;>
        norm_num [analyze_repository, ha]
  | true =>
      obtain ⟨-, hM, hH, hV, hC, hA, -⟩ := hspec u t
      simp only [analyze_repository, ha]
      simp only [Bool.true_eq_false, if_false]
      exact ⟨hM, hH, hV, hC, hA⟩

/-- Witness for C5 at the concrete input: available engine, example
URL, default threshold; the lower bound on M_score holds. -/
theorem C5_scores_in_range_witness :
    0 ≤ (analyze_repository specEngine ⟨true⟩ exampleUrl
        defaultThreshold).M_score :=
  (C5_scores_in_range specEngine specEngine_meets_spec ⟨true⟩ exampleUrl
      defaultThreshold).1.1

/-- C6: analyze_repository is deterministic — it is a pure function of
the engine, the engine-availability state, the URL and the threshold
(the embedding takes no clock or hidden state), so two analyzers in the
same engine-availability state yield identical result mappings. -/
theorem C6_deterministic (engine : MathematicalEngine)
    (a1 a2 : RepositoryAnalyzer) (u : String) (t : ℚ)
    (h : a1.demo_available = a2.demo_available) :
    analyze_repository engine a1 u t = analyze_repository engine a2 u t := by
  have h2 : a1 = a2 := by
    cases a1; cases a2; simp_all
  rw [h2]

/-- Witness for C6 at the concrete input: two analyzers both with the
engine unavailable give the same result. -/
theorem C6_deterministic_witness :
    analyze_repository specEngine ⟨false⟩ exampleUrl defaultThreshold =
      analyze_repository specEngine ⟨false⟩ exampleUrl defaultThreshold :=
  C6_deterministic specEngine ⟨false⟩ ⟨false⟩ exampleUrl defaultThreshold rfl

/-- C7, as stated, is false: at the invalid threshold 0 (outside (0,1])
analyze_repository does not reject — it returns a complete analysis
result echoing the invalid threshold. -/
theorem C7_counterexample :
    (analyze_repository specEngine ⟨false⟩ exampleUrl 0).threshold = 0 ∧
    (analyze_repository specEngine ⟨false⟩ exampleUrl 0).classification =
      "DEMO_HEALTHY" ∧
    (analyze_repository specEngine ⟨false⟩ exampleUrl 0).M_score = 3/4 := by
  refine ⟨?_, ?_, ?_⟩ <;> simp [analyze_repository]

/-- C7 (amended): analyze_repository performs no threshold validation at
all — for every threshold, including values outside (0,1], it produces
an analysis result and echoes the threshold unchanged in it. -/
theorem C7_no_threshold_validation (engine : MathematicalEngine)
    (a : RepositoryAnalyzer) (u : String) (t : ℚ) :
    (analyze_repository engine a u t).threshold = t := by
  cases ha : a.demo_available <;> simp [analyze_repository, ha]

/-- C8, as stated, is false on the fallback branch: the fallback
result's metrics H 0.8 / V 0.7 / C 0.6 / A 0.2 are all within the
target bands (H ≥ 0.6, V ≥ 0.5, C ≥ 0.5, A ≤ 0.3), yet its
recommendations list is the non-empty install advisory. -/
theorem C8_counterexample :
    metricsInBand (analyze_repository specEngine ⟨false⟩ exampleUrl
      defaultThreshold).metrics ∧
    (analyze_repository specEngine ⟨false⟩ exampleUrl
      defaultThreshold).recommendations ≠ [] := by
  constructor
  · refine ⟨?_, ?_, ?_, ?_⟩ <;> norm_num [analyze_repository]
  · simp [analyze_repository]

/-- C8 (amended): when the engine is available (with the spec-modelled
recommendation generator), metrics all within the target bands yield an
empty recommendations list; on the fallback branch the metrics are
always within the bands yet the recommendations list is the fixed
non-empty install advisory. -/
theorem C8_in_band_empty_recommendations (engine : MathematicalEngine)
    (hspec : EngineMeetsSpec engine) (a : RepositoryAnalyzer)
    (u : String) (t : ℚ) :
    (a.demo_available = true →
      metricsInBand (analyze_repository engine a u t).metrics →
      (analyze_repository engine a u t).recommendations = []) ∧
    (a.demo_available = false →
      metricsInBand (analyze_repository engine a u t).metrics ∧
      (analyze_repository engine a u t).recommendations = [installHint]) := by
  constructor
  · intro h hband
    obtain ⟨-, -, -, -, -, -, hrec⟩ := hspec u t
    simp only [analyze_repository, h, Bool.true_eq_false, if_false] at hband ⊢
    exact hrec hband
  · intro h
    constructor
    · refine ⟨?_, ?_, ?_, ?_⟩ <;> norm_num [analyze_repository, h]
    · simp [analyze_repository, h]

/-- Witness for C8 at the concrete input: available engine (whose
metrics are all within band and whose recommendations key holds []),
example URL, default threshold; the recommendations list is empty. -/
theorem C8_in_band_empty_recommendations_witness :
    (analyze_repository specEngine ⟨true⟩ exampleUrl
        defaultThreshold).recommendations = [] :=
  (C8_in_band_empty_recommendations specEngine specEngine_meets_spec
      ⟨true⟩ exampleUrl defaultThreshold).1 rfl
    (by refine ⟨?_, ?_, ?_, ?_⟩ <;>
      norm_num [analyze_repository, specEngine])

/-- One method call on a RepositoryAnalyzer instance, with its
arguments. -/
inductive AnalyzerCall where
  | analyzeCall (repo_url : String) (threshold : ℚ)
  | infoCall
  deriving Repr

/-- The return value of one method call. -/
inductive CallOutput where
  | analysisOut (r : AnalysisResult)
  | infoOut (i : EngineInfo)
  deriving Repr

/-- State-passing embedding of one method call on a RepositoryAnalyzer
instance: the method receives the instance state and returns the state
after the call together with its return value.  Neither method body in
the source contains an assignment to any attribute of self, so the
outgoing state is the incoming one. -/
def dispatchCall (engine : MathematicalEngine)
    (self : RepositoryAnalyzer) :
    AnalyzerCall → RepositoryAnalyzer × CallOutput
  | .analyzeCall u t =>
      (self, .analysisOut (analyze_repository engine self u t))
  | .infoCall => (self, .infoOut (get_engine_info self))

/-- The instance state after a sequence of method calls. -/
def runCalls (engine : MathematicalEngine)
    (self : RepositoryAnalyzer) :
    List AnalyzerCall → RepositoryAnalyzer
  | [] => self
  | c :: cs => runCalls engine (dispatchCall engine self c).1 cs

/-- C9: the analyzer is stateless — after any sequence of
analyze_repository and get_engine_info calls the instance state is
unchanged, and in particular demo_available keeps its value. -/
theorem C9_stateless (engine : MathematicalEngine)
    (a : RepositoryAnalyzer) (calls : List AnalyzerCall) :
    runCalls engine a calls = a ∧
    (runCalls engine a calls).demo_available = a.demo_available := by
  have h : runCalls engine a calls = a := by
    induction calls with
    | nil => rfl
    | cons c cs ih => cases c <;> simpa [runCalls, dispatchCall] using ih
  exact ⟨h, by rw [h]⟩

/-- The attribute name read by the CLI analyze command
(`analyzer.proprietary_available`, cli/analyze.py line 65) and by the
API /health endpoint (src/api/main.py line 88). -/
def proprietaryAttrName : String := "proprietary_available"

/-- Instance-attribute lookup on a RepositoryAnalyzer: `__init__` stores
exactly one entry, `demo_available`, in the instance dictionary, and no
class attribute of any other looked-up name exists, so looking up any
other data attribute finds nothing — in Python an AttributeError,
embedded as `none`. -/
def RepositoryAnalyzer.getattr (self : RepositoryAnalyzer)
    (attr : String) : Option Bool :=
  if attr = "demo_available" then some self.demo_available else none

/-- The engine check of the CLI analyze command: it evaluates
`analyzer.proprietary_available`; `none` means the lookup raised
AttributeError and the command falls into its error handler. -/
def cli_proprietary_check (analyzer : RepositoryAnalyzer) : Option Bool :=
  analyzer.getattr proprietaryAttrName

/-- The API /health endpoint body: its response dict's
`proprietary_engine_available` entry evaluates
`analyzer.proprietary_available`; `none` means the evaluation raised
AttributeError and no response value is produced. -/
def health_check (analyzer : RepositoryAnalyzer) :
    Option (String × Bool × String) :=
  (analyzer.getattr proprietaryAttrName).map
    fun p => ("healthy", p, "1.0.0")

/-- C10: on every RepositoryAnalyzer instance, the attribute
`proprietary_available` is undefined, so the CLI's engine check and the
API /health endpoint both fault with AttributeError (evaluate to
`none`) instead of returning a value. -/
theorem C10_proprietary_attribute_faults (a : RepositoryAnalyzer) :
    RepositoryAnalyzer.getattr a proprietaryAttrName = none ∧
    cli_proprietary_check a = none ∧
    health_check a = none := by
  have h : RepositoryAnalyzer.getattr a proprietaryAttrName = none := by
    simp [RepositoryAnalyzer.getattr, proprietaryAttrName]
  exact ⟨h, h, by simp [health_check, h]⟩
